import Mathlib

/-!
Verification development for the `viam-vesc` motor driver
(`src/src/models/vesc.py`).

The Python source is shallowly embedded:

* bytes become `List Nat` (each entry below 256 wherever the source reads
  genuine bytes from the serial link);
* `struct.pack` formats with range checks (`'B'`, `'>i'`) become
  `Option`-returning encoders, so a Python `struct.error` shows up as `none`;
* the serial transport becomes a `Transport` record: an open flag plus an
  oracle telling whether the n-th write syscall succeeds;
* each `async` motor operation becomes a pure function from a transport, a
  write counter and a controller state to an `OpOut`: an outcome
  (normal return, raised exception, or blocked forever on the controller's
  non-reentrant `asyncio.Lock`), the poststate, the list of observable
  events (attempted transport writes and `asyncio.sleep` calls, in order),
  and the next write counter.  The source spawns no background task and no
  second coroutine, so the trace of a call is the complete transport
  activity attributable to it.
-/

set_option maxRecDepth 100000

attribute [local semireducible] Rat.mul Rat.add Rat.sub Rat.inv Rat.ofScientific

namespace Vesc

/-- `struct.pack('B', n)`: one unsigned byte; Python raises `struct.error`
for `n` outside `[0, 255]` (modelled as `none`). -/
def packB (n : Nat) : Option (List Nat) :=
  if n ≤ 255 then some [n] else none

/-- `struct.pack('BB', a, b)` (source line 391). -/
def packBB (a b : Nat) : Option (List Nat) := do
  let x ← packB a
  let y ← packB b
  pure (x ++ y)

/-- `struct.pack('BBB', a, b, c)` (source line 393). -/
def packBBB (a b c : Nat) : Option (List Nat) := do
  let x ← packB a
  let y ← packB b
  let z ← packB c
  pure (x ++ y ++ z)

/-- `struct.pack('>H', n)`: big-endian 16-bit value.  Every call site in the
source passes a value below 2^16 (a CRC masked to 16 bits, or a payload
length rebuilt from two bytes), so the format's range check is never hit and
the encoder is modelled total. -/
def packBE16 (n : Nat) : List Nat :=
  [n / 256 % 256, n % 256]

/-- One inner iteration of the CRC loop (source lines 381-385): shift the
accumulator left, XOR with the polynomial 0x1021 when the high bit was
set, and mask to 16 bits. -/
def crcShift (c : Nat) : Nat :=
  if c &&& 0x8000 ≠ 0 then ((c <<< 1) ^^^ 0x1021) &&& 0xFFFF
  else (c <<< 1) &&& 0xFFFF

/-- One byte of the CRC loop (source lines 379-385): XOR the byte into the
high half of the accumulator, then run 8 shift iterations. -/
def crcByte (crc byte : Nat) : Nat :=
  (List.range 8).foldl (fun c _ => crcShift c) (crc ^^^ (byte <<< 8))

/-- `Vesc._crc16` (source lines 376-386): CCITT-style CRC16, polynomial
0x1021, zero initial value, accumulator masked to 16 bits after every
shift. -/
def _crc16 (data : List Nat) : Nat :=
  data.foldl crcByte 0

/-- `Vesc._pack_payload` (source lines 388-398): extended framing.  A header
(`struct.pack('BB', 2, len)` for `len(payload) <= 256`, otherwise
`struct.pack('BBB', 3, len >> 8, len & 0xFF)`) followed by the payload, the
big-endian CRC16 of the payload, and a trailing `0x03` byte.  The header is
built before the CRC, so a `struct.error` in the header (`none`) propagates
exactly as the Python exception would. -/
def _pack_payload (payload : List Nat) : Option (List Nat) :=
  let header? :=
    if payload.length ≤ 256 then packBB 2 payload.length
    else packBBB 3 (payload.length >>> 8) (payload.length &&& 0xFF)
  header?.map fun header =>
    header ++ payload ++ packBE16 (_crc16 payload) ++ [3]

/-- `Vesc._read_packet` (source lines 418-463).  The inbound byte stream is
modelled as the list of bytes the serial port will deliver; `read(n)`
returns up to `n` leading bytes, so a short list models a timeout.  The
decoder parses `packet_id(1) | length(u16 BE) | payload | CRC16 BE` where
the CRC is computed over `id ++ length ++ payload`, and (faithful to the
source) returns `none` — it never raises — when the link is not open, on an
empty leading read, a truncated length/payload/CRC read, a CRC mismatch, or
(when `expected_id` is truthy) a non-matching packet id. -/
def _read_packet (isOpen : Bool) (stream : List Nat) (expected_id : Option Nat) :
    Option (List Nat) :=
  if isOpen = false then none
  else
    match stream with
    | [] => none
    | packet_id :: rest =>
      match rest with
      | l0 :: l1 :: rest2 =>
        let payload_length := l0 * 256 + l1
        let payload := rest2.take payload_length
        if payload.length ≠ payload_length then none
        else
          match rest2.drop payload_length with
          | c0 :: c1 :: _ =>
            let received_crc := c0 * 256 + c1
            let calculated_crc :=
              _crc16 ([packet_id] ++ packBE16 payload_length ++ payload)
            if received_crc ≠ calculated_crc then none
            else
              match expected_id with
              | some e => if e ≠ 0 ∧ packet_id ≠ e then none else some payload
              | none => some payload
          | [_] => none
          | [] => none
      | [_] => none
      | [] => none

/-- The inbound wire shape `_read_packet` accepts (its own CRC recomputation
at source line 449 fixes the byte range): `packet_id`, big-endian 16-bit
payload length, payload, and a big-endian CRC16 over `id ++ length ++
payload`. -/
def telemetryFrame (packet_id : Nat) (payload : List Nat) : List Nat :=
  packet_id :: packBE16 payload.length ++ payload ++
    packBE16 (_crc16 (packet_id :: packBE16 payload.length ++ payload))

/-- Outbound framing used by `_send_packet` (source lines 407-409):
`struct.pack('B', command_id) + payload` wrapped by `_pack_payload`. -/
def framePacketBytes (command_id : Nat) (payload : List Nat) : Option (List Nat) :=
  (packB command_id).bind fun idb => _pack_payload (idb ++ payload)

/-! ## Controller embedding -/

/-- Python `int()` applied to a rational: truncation toward zero
(used for `int(power * 100000)` and `int(rpm)`).  `Int.tdiv` is Lean's
truncating division, and a rational is stored in lowest terms with a
positive denominator, so `Int.tdiv q.num q.den` is exactly `int(q)`. -/
def pyInt (q : ℚ) : ℤ :=
  Int.tdiv q.num q.den

/-- Python `min` on two rationals. -/
def pyMin (a b : ℚ) : ℚ := if a ≤ b then a else b

/-- Python `max` on two rationals. -/
def pyMax (a b : ℚ) : ℚ := if b ≤ a then a else b

/-- Python `abs` on a rational. -/
def pyAbs (q : ℚ) : ℚ := if q < 0 then -q else q

/-- The four big-endian bytes of a 32-bit two's-complement integer. -/
def i32bytes (n : ℤ) : List Nat :=
  let m := (n % 2 ^ 32).toNat
  [m / 2 ^ 24 % 256, m / 2 ^ 16 % 256, m / 2 ^ 8 % 256, m % 256]

/-- `struct.pack('>i', n)`: big-endian signed 32-bit; Python raises
`struct.error` (modelled as `none`) outside the int32 range. -/
def packI32 (n : ℤ) : Option (List Nat) :=
  if -(2 ^ 31) ≤ n ∧ n < 2 ^ 31 then some (i32bytes n) else none

/-- The serial transport: the open flag of `self.serial_port`, plus an
oracle giving the success of the n-th write syscall (a `false` entry models
`serial_port.write` raising). -/
structure Transport where
  isOpen : Bool
  writeOk : Nat → Bool

/-- The mutable controller fields set in `Vesc.__init__`
(source lines 299-304), with the source's names, plus the state of the
non-reentrant `asyncio.Lock` created there. -/
structure VescState where
  _is_powered : Bool
  _current_power : ℚ
  _current_rpm : ℚ
  _position : ℚ
  _is_moving : Bool
  lockHeld : Bool
  deriving DecidableEq

/-- The controller state right after `__init__`: all-zero idle defaults,
lock free. -/
def initState : VescState :=
  { _is_powered := false, _current_power := 0, _current_rpm := 0,
    _position := 0, _is_moving := false, lockHeld := false }

/-- Observable events of one operation, in program order: an attempted
transport write of the given framed bytes (with the syscall's success), or
an `asyncio.sleep` of the given number of seconds. -/
inductive Event where
  | write (bytes : List Nat) (ok : Bool)
  | sleep (seconds : ℚ)
  deriving DecidableEq

/-- How a call to an `async` operation ends: a normal return, a raised
exception (`RuntimeError` or `struct.error`), or blocked forever trying to
acquire the controller's non-reentrant `asyncio.Lock`. -/
inductive Outcome where
  | ok
  | error
  | deadlock
  deriving DecidableEq

/-- Result of running one operation: outcome, poststate, event trace, and
the next write-syscall index. -/
structure OpOut where
  outcome : Outcome
  state : VescState
  trace : List Event
  next : Nat
  deriving DecidableEq

/-- Result of `_send_packet`: its boolean return, the write events it
produced, and the next write-syscall index. -/
structure SendOut where
  ok : Bool
  events : List Event
  next : Nat
  deriving DecidableEq

/-- `Vesc._send_packet` (source lines 400-416): returns `False` without
writing when the port is not open; frames `struct.pack('B', command_id) +
payload` with `_pack_payload` (a `struct.error` here is caught by the
`except` and also yields `False`); otherwise performs one write syscall
whose success the transport oracle decides. -/
def _send_packet (t : Transport) (k : Nat) (command_id : Nat) (payload : List Nat) :
    SendOut :=
  if t.isOpen = false then ⟨false, [], k⟩
  else
    match framePacketBytes command_id payload with
    | none => ⟨false, [], k⟩
    | some packet => ⟨t.writeOk k, [Event.write packet (t.writeOk k)], k + 1⟩

/-- `max(-1.0, min(1.0, power))` (source line 479). -/
def clamp (p : ℚ) : ℚ := pyMax (-1) (pyMin 1 p)

/-- The direction-change test of `set_power` (source lines 482-483):
`self._current_power != 0 and ((self._current_power > 0 and power < 0) or
(self._current_power < 0 and power > 0))`.  The `hasattr` guard is always
true because `__init__` sets the field. -/
def directionChange (cur pNew : ℚ) : Bool :=
  decide (cur ≠ 0) &&
    ((decide (0 < cur) && decide (pNew < 0)) ||
     (decide (cur < 0) && decide (0 < pNew)))

/-- `Vesc.set_power` (source lines 469-500): acquire the lock, clamp the
power, on a sign reversal send a zero-duty packet (`struct.pack('>i', 0)`
never raises, so its bytes are `i32bytes 0` directly) and sleep 0.1 s, then
pack `int(power * 100000)` as int32 and send it as command 5; on a
successful send update `_is_powered`/`_current_power`/`_is_moving`, else
raise `RuntimeError`.  The duplicated `directionChange` condition below
computes the single Python conditional's trace and counter effects. -/
def set_power (t : Transport) (k : Nat) (s : VescState) (power : ℚ) : OpOut :=
  if s.lockHeld then ⟨.deadlock, s, [], k⟩
  else
    let s0 := { s with lockHeld := true }
    let p := clamp power
    let preTrace :=
      if directionChange s._current_power p then
        (_send_packet t k 5 (i32bytes 0)).events ++ [Event.sleep (1 / 10)]
      else []
    let k1 :=
      if directionChange s._current_power p then (_send_packet t k 5 (i32bytes 0)).next
      else k
    let duty_int := pyInt (p * 100000)
    match packI32 duty_int with
    | none => ⟨.error, { s0 with lockHeld := false }, preTrace, k1⟩
    | some payload =>
      let r := _send_packet t k1 5 payload
      if r.ok then
        ⟨.ok,
          { s0 with
            _is_powered := decide (p ≠ 0), _current_power := p,
            _is_moving := decide (p ≠ 0), lockHeld := false },
          preTrace ++ r.events, r.next⟩
      else ⟨.error, { s0 with lockHeld := false }, preTrace ++ r.events, r.next⟩

/-- `Vesc.set_rpm` (source lines 558-578): acquire the lock, pack
`int(rpm)` as int32, send it as command 8; on success update
`_current_rpm`/`_is_powered`/`_is_moving`, else raise `RuntimeError`. -/
def set_rpm (t : Transport) (k : Nat) (s : VescState) (rpm : ℚ) : OpOut :=
  if s.lockHeld then ⟨.deadlock, s, [], k⟩
  else
    let s0 := { s with lockHeld := true }
    match packI32 (pyInt rpm) with
    | none => ⟨.error, { s0 with lockHeld := false }, [], k⟩
    | some rpm_payload =>
      let r := _send_packet t k 8 rpm_payload
      if r.ok then
        ⟨.ok,
          { s0 with
            _current_rpm := rpm, _is_powered := decide (rpm ≠ 0),
            _is_moving := decide (rpm ≠ 0), lockHeld := false },
          r.events, r.next⟩
      else ⟨.error, { s0 with lockHeld := false }, r.events, r.next⟩

/-- `Vesc.stop` (source lines 613-633): acquire the lock, send a zero-duty
packet as command 5; on success zero out the state flags, else raise
`RuntimeError`.  Called on a state already holding the lock (as `go_for`
does), the `async with` blocks forever: the `asyncio.Lock` is not
reentrant and the sole task is the one awaiting it. -/
def stop (t : Transport) (k : Nat) (s : VescState) : OpOut :=
  if s.lockHeld then ⟨.deadlock, s, [], k⟩
  else
    let s0 := { s with lockHeld := true }
    let r := _send_packet t k 5 (i32bytes 0)
    if r.ok then
      ⟨.ok,
        { s0 with
          _is_powered := false, _current_power := 0, _current_rpm := 0,
          _is_moving := false, lockHeld := false },
        r.events, r.next⟩
    else ⟨.error, { s0 with lockHeld := false }, r.events, r.next⟩

/-- `Vesc.go_for` (source lines 502-540): acquire the lock; for
`revolutions == 0` delegate to `stop()` while still holding the lock; else
send `int(rpm)` as command 8 (raising `RuntimeError` on failure), set the
motion flags, and — only when `rpm != 0` — sleep
`abs(revolutions / rpm) * 60` seconds, await `stop()` (again while still
holding the lock), and only then advance `_position`. -/
def go_for (t : Transport) (k : Nat) (s : VescState) (rpm revolutions : ℚ) : OpOut :=
  if s.lockHeld then ⟨.deadlock, s, [], k⟩
  else
    let s0 := { s with lockHeld := true }
    if revolutions = 0 then
      stop t k s0
    else
      match packI32 (pyInt rpm) with
      | none => ⟨.error, { s0 with lockHeld := false }, [], k⟩
      | some rpm_payload =>
        let r := _send_packet t k 8 rpm_payload
        if r.ok = false then ⟨.error, { s0 with lockHeld := false }, r.events, r.next⟩
        else
          let s1 := { s0 with _current_rpm := rpm, _is_powered := true, _is_moving := true }
          if rpm = 0 then ⟨.ok, { s1 with lockHeld := false }, r.events, r.next⟩
          else
            let time_needed := pyAbs (revolutions / rpm) * 60
            let rs := stop t r.next s1
            ⟨rs.outcome, rs.state, r.events ++ [Event.sleep time_needed] ++ rs.trace, rs.next⟩

/-- `Vesc.go_to` (source lines 542-556): reads `self._position` without the
lock, computes `revolutions_needed`, and delegates to `go_for`. -/
def go_to (t : Transport) (k : Nat) (s : VescState) (rpm position_revolutions : ℚ) : OpOut :=
  let revolutions_needed := position_revolutions - s._position
  go_for t k s rpm revolutions_needed

/-- A transport whose link is open and whose writes all succeed. -/
def okTransport : Transport := ⟨true, fun _ => true⟩

/-- A transport whose link is open but whose every write syscall raises. -/
def failTransport : Transport := ⟨true, fun _ => false⟩

/-! ## Helper lemmas -/

/-- The frame `_send_packet` hands to the serial port for a command id and
payload small enough that no `struct` range check fires. -/
def vescFrame (command_id : Nat) (payload : List Nat) : List Nat :=
  [2, payload.length + 1, command_id] ++ payload ++
    packBE16 (_crc16 (command_id :: payload)) ++ [3]

theorem i32bytes_length (n : ℤ) : (i32bytes n).length = 4 := rfl

theorem clamp_idem (p : ℚ) : clamp (clamp p) = clamp p := by
  unfold clamp pyMax pyMin
  split_ifs <;> linarith

theorem clamp_bounds (p : ℚ) : -1 ≤ clamp p ∧ clamp p ≤ 1 := by
  unfold clamp pyMax pyMin
  split_ifs <;> constructor <;> linarith

theorem pyAbs_eq_abs (q : ℚ) : pyAbs q = |q| := by
  unfold pyAbs
  split
  · rw [abs_of_neg (by assumption)]
  · rw [abs_of_nonneg (by linarith [not_lt.mp (by assumption)])]

theorem pyInt_natAbs_le (q : ℚ) (M : ℕ) (h : |q| ≤ M) : (pyInt q).natAbs ≤ M := by
  unfold pyInt
  rw [Int.natAbs_tdiv, Int.natAbs_ofNat]
  have hden : (0 : ℚ) < (q.den : ℚ) := by positivity
  have h1 : |(q.num : ℚ)| ≤ (M : ℚ) * q.den := by
    have h2 : |(q.num : ℚ)| / (q.den : ℚ) ≤ M := by
      have h3 : |(q.num : ℚ) / (q.den : ℚ)| = |(q.num : ℚ)| / (q.den : ℚ) := by
        rw [abs_div, abs_of_pos hden]
      rw [← h3, Rat.num_div_den]
      exact h
    calc |(q.num : ℚ)| = |(q.num : ℚ)| / (q.den : ℚ) * (q.den : ℚ) := by
          field_simp
      _ ≤ (M : ℚ) * q.den := mul_le_mul_of_nonneg_right h2 hden.le
  have h4 : ((q.num.natAbs : ℕ) : ℚ) ≤ ((M * q.den : ℕ) : ℚ) := by
    push_cast [Int.cast_natAbs]
    exact h1
  have h5 : q.num.natAbs ≤ M * q.den := by exact_mod_cast h4
  show q.num.natAbs / q.den ≤ M
  calc q.num.natAbs / q.den ≤ M * q.den / q.den := Nat.div_le_div_right h5
    _ = M := by rw [Nat.mul_div_cancel _ q.den_pos]

theorem packI32_of_natAbs_le (n : ℤ) (h : n.natAbs ≤ 2 ^ 31 - 1) :
    packI32 n = some (i32bytes n) := by
  unfold packI32
  rw [if_pos]
  omega

theorem packI32_clamp_duty (p : ℚ) :
    packI32 (pyInt (clamp p * 100000)) = some (i32bytes (pyInt (clamp p * 100000))) := by
  apply packI32_of_natAbs_le
  apply le_trans (b := 100000) ?_ (by norm_num)
  apply pyInt_natAbs_le
  obtain ⟨h1, h2⟩ := clamp_bounds p
  rw [abs_mul]
  have : |(100000 : ℚ)| = 100000 := by norm_num
  rw [this]
  have hc : |clamp p| ≤ 1 := abs_le.mpr ⟨h1, h2⟩
  calc |clamp p| * 100000 ≤ 1 * 100000 := by
        apply mul_le_mul_of_nonneg_right hc (by norm_num)
    _ = (100000 : ℕ) := by norm_num

theorem framePacketBytes_eq (command_id : Nat) (payload : List Nat)
    (hid : command_id ≤ 255) (hlen : payload.length + 1 ≤ 255) :
    framePacketBytes command_id payload = some (vescFrame command_id payload) := by
  unfold framePacketBytes packB
  rw [if_pos hid]
  rw [Option.some_bind]
  unfold _pack_payload packBB packB
  have hl256 : ([command_id] ++ payload).length ≤ 256 := by simp; omega
  have hl255 : ([command_id] ++ payload).length ≤ 255 := by simp; omega
  rw [if_pos hl256, if_pos (by norm_num : (2 : ℕ) ≤ 255), if_pos hl255]
  simp [vescFrame]

theorem _send_packet_eq (t : Transport) (k : Nat) (command_id : Nat)
    (payload : List Nat) (hid : command_id ≤ 255) (hlen : payload.length + 1 ≤ 255) :
    _send_packet t k command_id payload =
      if t.isOpen = false then ⟨false, [], k⟩
      else ⟨t.writeOk k, [Event.write (vescFrame command_id payload) (t.writeOk k)], k + 1⟩ := by
  unfold _send_packet
  rw [framePacketBytes_eq command_id payload hid hlen]

theorem _send_packet_duty (t : Transport) (k : Nat) (n : ℤ) :
    _send_packet t k 5 (i32bytes n) =
      if t.isOpen = false then ⟨false, [], k⟩
      else ⟨t.writeOk k, [Event.write (vescFrame 5 (i32bytes n)) (t.writeOk k)], k + 1⟩ :=
  _send_packet_eq t k 5 (i32bytes n) (by norm_num) (by simp [i32bytes_length])

theorem _send_packet_rpm (t : Transport) (k : Nat) (n : ℤ) :
    _send_packet t k 8 (i32bytes n) =
      if t.isOpen = false then ⟨false, [], k⟩
      else ⟨t.writeOk k, [Event.write (vescFrame 8 (i32bytes n)) (t.writeOk k)], k + 1⟩ :=
  _send_packet_eq t k 8 (i32bytes n) (by norm_num) (by simp [i32bytes_length])

theorem unlock_eq (s : VescState) (hl : s.lockHeld = false) :
    { s with lockHeld := false } = s := by
  cases s
  simp_all

/-- Full behaviour of `set_power` on an unlocked controller with an open
link: an optional zero-duty write plus settle sleep on a direction change,
then exactly one scaled-int32 duty write whose success decides between the
state update and the raised `RuntimeError`. -/
theorem set_power_eq (t : Transport) (k : Nat) (s : VescState) (power : ℚ)
    (hl : s.lockHeld = false) (ho : t.isOpen = true) :
    set_power t k s power =
      (let p := clamp power
       let pre := directionChange s._current_power p
       let preTrace :=
         if pre then [Event.write (vescFrame 5 (i32bytes 0)) (t.writeOk k), Event.sleep (1 / 10)]
         else []
       let k1 := if pre then k + 1 else k
       let w := Event.write (vescFrame 5 (i32bytes (pyInt (p * 100000)))) (t.writeOk k1)
       if t.writeOk k1 then
         ⟨.ok,
           { s with
             _is_powered := decide (p ≠ 0), _current_power := p,
             _is_moving := decide (p ≠ 0), lockHeld := false },
           preTrace ++ [w], k1 + 1⟩
       else ⟨.error, { s with lockHeld := false }, preTrace ++ [w], k1 + 1⟩) := by
  unfold set_power
  simp only [hl, Bool.false_eq_true, if_false, packI32_clamp_duty, _send_packet_duty, ho,
    Bool.true_eq_false]
  simp

/-- Full behaviour of `stop` on an unlocked controller: one zero-duty
write; on success the flags reset, on failure (link closed or write raise)
a `RuntimeError` with the state untouched. -/
theorem stop_eq (t : Transport) (k : Nat) (s : VescState) (hl : s.lockHeld = false) :
    stop t k s =
      if t.isOpen = false then ⟨.error, { s with lockHeld := false }, [], k⟩
      else if t.writeOk k then
        ⟨.ok,
          { s with
            _is_powered := false, _current_power := 0, _current_rpm := 0,
            _is_moving := false, lockHeld := false },
          [Event.write (vescFrame 5 (i32bytes 0)) (t.writeOk k)], k + 1⟩
      else
        ⟨.error, { s with lockHeld := false },
          [Event.write (vescFrame 5 (i32bytes 0)) (t.writeOk k)], k + 1⟩ := by
  unfold stop
  simp only [hl, Bool.false_eq_true, if_false, _send_packet_duty]
  by_cases ho : t.isOpen = false
  · simp [ho]
  · simp only [Bool.not_eq_false] at ho
    by_cases hw : t.writeOk k = true
    · simp [ho, hw]
    · simp only [Bool.not_eq_true] at hw
      simp [ho, hw]


theorem crcShift_lt (c : Nat) : crcShift c < 65536 := by
  unfold crcShift
  split
  · exact lt_of_le_of_lt Nat.and_le_right (by norm_num)
  · exact lt_of_le_of_lt Nat.and_le_right (by norm_num)

theorem crcByte_lt (crc byte : Nat) : crcByte crc byte < 65536 := by
  unfold crcByte
  rw [show (8 : Nat) = 7 + 1 from rfl, List.range_succ, List.foldl_append]
  simp only [List.foldl_cons, List.foldl_nil]
  exact crcShift_lt _

theorem _crc16_lt (data : List Nat) : _crc16 data < 65536 := by
  unfold _crc16
  have h : ∀ (l : List Nat) (acc : Nat), acc < 65536 → l.foldl crcByte acc < 65536 := by
    intro l
    induction l with
    | nil => exact fun acc h => h
    | cons b tl ih => exact fun acc h => ih _ (crcByte_lt acc b)
  exact h data 0 (by norm_num)

/-! ## Claim theorems -/

/-- C10: for every power outside [-1, 1], `set_power(p)` is literally the
same computation as `set_power` of the clamped value — identical outcome,
state fields, transport writes and write counter — because the source
clamps first and everything afterwards uses only the clamped value. -/
theorem set_power_clamps_out_of_range (t : Transport) (k : Nat) (s : VescState)
    (p : ℚ) (h : p < -1 ∨ 1 < p) :
    set_power t k s p = set_power t k s (clamp p) := by
  unfold set_power
  rw [clamp_idem]

/-- Witness for C10 at the out-of-range power 2. -/
theorem set_power_clamps_out_of_range_witness :
    ((2 : ℚ) < -1 ∨ 1 < (2 : ℚ)) ∧
      set_power okTransport 0 initState 2 = set_power okTransport 0 initState (clamp 2) :=
  ⟨Or.inr (by norm_num),
   set_power_clamps_out_of_range okTransport 0 initState 2 (Or.inr (by norm_num))⟩


/-- C9: a `set_power` call whose clamped target reverses the sign of a
non-zero current power writes a zero-duty command, sleeps 0.1 s to settle,
and only then writes the duty command for the new power, so the zero-duty
write is strictly before the new-sign duty write in the transport
sequence. -/
theorem set_power_direction_change_zero_duty_first (t : Transport) (k : Nat)
    (s : VescState) (power : ℚ)
    (hl : s.lockHeld = false) (ho : t.isOpen = true)
    (hw1 : t.writeOk k = true) (hw2 : t.writeOk (k + 1) = true)
    (hrev : (0 < s._current_power ∧ clamp power < 0) ∨
            (s._current_power < 0 ∧ 0 < clamp power)) :
    (set_power t k s power).trace =
      [Event.write (vescFrame 5 (i32bytes 0)) true, Event.sleep (1 / 10),
       Event.write (vescFrame 5 (i32bytes (pyInt (clamp power * 100000)))) true] ∧
    (set_power t k s power).outcome = .ok := by
  have hd : directionChange s._current_power (clamp power) = true := by
    unfold directionChange
    rcases hrev with ⟨h1, h2⟩ | ⟨h1, h2⟩
    · simp [h1, h2, ne_of_gt h1]
    · simp [h1, h2, ne_of_lt h1]
  rw [set_power_eq t k s power hl ho]
  simp [hd, hw1, hw2]

/-- Witness for C9: the scenario from the spec, `set_power(0.5)` already
completed (current power 1/2) followed by `set_power(-0.3)`. -/
theorem set_power_direction_change_zero_duty_first_witness :
    ({ initState with _current_power := 1/2 } : VescState).lockHeld = false ∧
    (0 < ({ initState with _current_power := 1/2 } : VescState)._current_power ∧
      clamp (-(3/10)) < 0) ∧
    (set_power okTransport 0 { initState with _current_power := 1/2 } (-(3/10))).trace =
      [Event.write (vescFrame 5 (i32bytes 0)) true, Event.sleep (1 / 10),
       Event.write (vescFrame 5 (i32bytes (pyInt (clamp (-(3/10)) * 100000)))) true] ∧
    (set_power okTransport 0 { initState with _current_power := 1/2 } (-(3/10))).outcome = .ok := by
  refine ⟨rfl, ⟨by decide, by decide⟩, ?_, ?_⟩
  · exact (set_power_direction_change_zero_duty_first okTransport 0 _ _ rfl rfl rfl rfl
      (Or.inl ⟨by decide, by decide⟩)).1
  · exact (set_power_direction_change_zero_duty_first okTransport 0 _ _ rfl rfl rfl rfl
      (Or.inl ⟨by decide, by decide⟩)).2


/-- C8: for `set_power`, `set_rpm` and `stop`, when the transport write of
the operation's command fails, the operation raises `RuntimeError` and
every controller state field (`_is_powered`, `_current_power`,
`_current_rpm`, `_position`, `_is_moving`) is left exactly as it was:
state is mutated only after a successful send. -/
theorem motion_ops_failed_send_preserves_state (t : Transport) (k : Nat)
    (s : VescState) (power rpm : ℚ)
    (hl : s.lockHeld = false)
    (hw1 : t.writeOk k = false) (hw2 : t.writeOk (k + 1) = false) :
    ((set_power t k s power).outcome = .error ∧ (set_power t k s power).state = s) ∧
    ((set_rpm t k s rpm).outcome = .error ∧ (set_rpm t k s rpm).state = s) ∧
    ((stop t k s).outcome = .error ∧ (stop t k s).state = s) := by
  refine ⟨?_, ?_, ?_⟩
  · by_cases ho : t.isOpen = true
    · rw [set_power_eq t k s power hl ho]
      by_cases hd : directionChange s._current_power (clamp power) = true
      · simp [hd, hw1, hw2, unlock_eq s hl]
      · simp only [Bool.not_eq_true] at hd
        simp [hd, hw1, unlock_eq s hl]
    · simp only [Bool.not_eq_true] at ho
      unfold set_power
      simp only [hl, Bool.false_eq_true, if_false, packI32_clamp_duty, _send_packet_duty, ho,
        if_true]
      simp [unlock_eq s hl]
  · unfold set_rpm
    simp only [hl, Bool.false_eq_true, if_false]
    cases hp : packI32 (pyInt rpm) with
    | none => simp [unlock_eq s hl]
    | some payload =>
      have hpay : payload = i32bytes (pyInt rpm) := by
        unfold packI32 at hp
        split at hp
        · exact (Option.some.inj hp).symm
        · cases hp
      subst hpay
      simp only [_send_packet_rpm]
      by_cases ho : t.isOpen = false
      · simp [ho, unlock_eq s hl]
      · simp only [Bool.not_eq_false] at ho
        simp [ho, hw1, unlock_eq s hl]
  · rw [stop_eq t k s hl]
    by_cases ho : t.isOpen = false
    · simp [ho, unlock_eq s hl]
    · simp only [Bool.not_eq_false] at ho
      simp [ho, hw1, unlock_eq s hl]

/-- Witness for C8 on a transport whose writes all fail. -/
theorem motion_ops_failed_send_preserves_state_witness :
    initState.lockHeld = false ∧
    failTransport.writeOk 0 = false ∧ failTransport.writeOk 1 = false ∧
    (((set_power failTransport 0 initState (1/2)).outcome = .error ∧
      (set_power failTransport 0 initState (1/2)).state = initState) ∧
     ((set_rpm failTransport 0 initState 100).outcome = .error ∧
      (set_rpm failTransport 0 initState 100).state = initState) ∧
     ((stop failTransport 0 initState).outcome = .error ∧
      (stop failTransport 0 initState).state = initState)) :=
  ⟨rfl, rfl, rfl,
   motion_ops_failed_send_preserves_state failTransport 0 initState (1/2) 100 rfl rfl rfl⟩

/-- C1 (amended): `set_power` performs a single scaled-int32 duty-command
write for the clamped target power — preceded by a zero-duty write and a
0.1 s settle sleep only on a sign reversal — and starts no background
refresh task: this trace is the call's complete transport activity, and no
periodic re-send of the target power exists anywhere in the driver.  The
`p = 0` case goes through the very same single-write path. -/
theorem set_power_single_duty_write (t : Transport) (k : Nat) (s : VescState)
    (power : ℚ) (hl : s.lockHeld = false) (ho : t.isOpen = true)
    (hw1 : t.writeOk k = true) (hw2 : t.writeOk (k + 1) = true) :
    (set_power t k s power).outcome = .ok ∧
    (set_power t k s power).trace =
      (if directionChange s._current_power (clamp power) then
        [Event.write (vescFrame 5 (i32bytes 0)) true, Event.sleep (1 / 10)]
       else []) ++
      [Event.write (vescFrame 5 (i32bytes (pyInt (clamp power * 100000)))) true] ∧
    (set_power t k s power).next =
      (if directionChange s._current_power (clamp power) then k + 2 else k + 1) := by
  rw [set_power_eq t k s power hl ho]
  by_cases hd : directionChange s._current_power (clamp power) = true
  · simp [hd, hw1, hw2]
  · simp only [Bool.not_eq_true] at hd
    simp [hd, hw1]

/-- Witness for the amended C1 at power 1/4 from the idle state. -/
theorem set_power_single_duty_write_witness :
    initState.lockHeld = false ∧ okTransport.isOpen = true ∧
    okTransport.writeOk 0 = true ∧ okTransport.writeOk 1 = true ∧
    ((set_power okTransport 0 initState (1/4)).outcome = .ok ∧
     (set_power okTransport 0 initState (1/4)).trace =
       (if directionChange initState._current_power (clamp (1/4)) then
         [Event.write (vescFrame 5 (i32bytes 0)) true, Event.sleep (1 / 10)]
        else []) ++
       [Event.write (vescFrame 5 (i32bytes (pyInt (clamp (1/4) * 100000)))) true] ∧
     (set_power okTransport 0 initState (1/4)).next =
       (if directionChange initState._current_power (clamp (1/4)) then 0 + 2 else 0 + 1)) :=
  ⟨rfl, rfl, rfl, rfl,
   set_power_single_duty_write okTransport 0 initState (1/4) rfl rfl rfl rfl⟩

/-- C1 (counterexample): after `set_power(0.5)` from the idle state, the
complete transport activity of the call is exactly one duty-command write
and the write counter advanced by one.  The source spawns no task
(`asyncio.create_task` appears nowhere in it), so no duty re-send can
happen after the call returns, contradicting the claimed
once-per-`command_interval` background refresh — `command_interval` is not
even part of the configuration the source reads. -/
theorem set_power_no_refresh_counterexample :
    (set_power okTransport 0 initState (1/2)).outcome = .ok ∧
    (set_power okTransport 0 initState (1/2)).trace =
      [Event.write (vescFrame 5 (i32bytes 50000)) true] ∧
    (set_power okTransport 0 initState (1/2)).next = 1 :=
  ⟨by decide, by decide, by decide⟩

/-- C4 (amended): the power-command send path attempts exactly one
encoding — the scaled-integer int32 duty `int(power * 100000)` — and
surfaces failure to the caller as soon as that single write fails; there
is no 32-bit-float first attempt and no current-command fallback anywhere
in `set_power`. -/
theorem set_power_no_encoding_fallback (t : Transport) (k : Nat) (s : VescState)
    (power : ℚ) (hl : s.lockHeld = false) (ho : t.isOpen = true)
    (hw1 : t.writeOk k = false) (hw2 : t.writeOk (k + 1) = false) :
    (set_power t k s power).outcome = .error ∧
    (set_power t k s power).trace =
      (if directionChange s._current_power (clamp power) then
        [Event.write (vescFrame 5 (i32bytes 0)) false, Event.sleep (1 / 10)]
       else []) ++
      [Event.write (vescFrame 5 (i32bytes (pyInt (clamp power * 100000)))) false] := by
  rw [set_power_eq t k s power hl ho]
  by_cases hd : directionChange s._current_power (clamp power) = true
  · simp [hd, hw1, hw2]
  · simp only [Bool.not_eq_true] at hd
    simp [hd, hw1]

/-- Witness for the amended C4 with every transport write failing. -/
theorem set_power_no_encoding_fallback_witness :
    initState.lockHeld = false ∧ failTransport.isOpen = true ∧
    failTransport.writeOk 0 = false ∧ failTransport.writeOk 1 = false ∧
    ((set_power failTransport 0 initState (1/2)).outcome = .error ∧
     (set_power failTransport 0 initState (1/2)).trace =
       (if directionChange initState._current_power (clamp (1/2)) then
         [Event.write (vescFrame 5 (i32bytes 0)) false, Event.sleep (1 / 10)]
        else []) ++
       [Event.write (vescFrame 5 (i32bytes (pyInt (clamp (1/2) * 100000)))) false]) :=
  ⟨rfl, rfl, rfl, rfl,
   set_power_no_encoding_fallback failTransport 0 initState (1/2) rfl rfl rfl rfl⟩

/-- C4 (counterexample): with every transport write failing,
`set_power(0.5)` makes exactly one write attempt, whose payload encodes
the scaled int32 `50000 = 0.5 * 100000` (not a 32-bit float), and then
raises: no float attempt, no scaled-integer retry, no current-command
retry — the claimed three-stage fallback chain does not exist. -/
theorem set_power_single_attempt_counterexample :
    (set_power failTransport 0 initState (1/2)).outcome = .error ∧
    (set_power failTransport 0 initState (1/2)).trace =
      [Event.write (vescFrame 5 (i32bytes 50000)) false] ∧
    (set_power failTransport 0 initState (1/2)).next = 1 :=
  ⟨by decide, by decide, by decide⟩

/-- C2 (amended): `go_for` never advances `_position`.  With the link open
and the RPM write succeeding (and `int(rpm)` within int32 range), it
deadlocks — the awaited `stop()` blocks forever acquiring the controller's
non-reentrant `asyncio.Lock`, which `go_for` still holds — whenever
`revolutions = 0` (immediate `stop()`) or `rpm ≠ 0` (`stop()` after the
timed sleep).  For `rpm = 0` and `revolutions ≠ 0`, however, the
`if rpm != 0` guard skips the sleep/stop/position block and the call
returns normally, so the original "for every rpm and revolutions" is too
strong.  `go_to` delegates to `go_for` with
`revolutions = target - _position`, inheriting this behaviour. -/
theorem go_for_deadlock_or_zero_rpm (t : Transport) (k : Nat) (s : VescState)
    (rpm revolutions pos : ℚ)
    (hl : s.lockHeld = false) (ho : t.isOpen = true) (hw : t.writeOk k = true)
    (hr : (pyInt rpm).natAbs ≤ 2 ^ 31 - 1) :
    ((revolutions = 0 ∨ rpm ≠ 0) → (go_for t k s rpm revolutions).outcome = .deadlock) ∧
    (go_for t k s rpm revolutions).state._position = s._position ∧
    (rpm = 0 → revolutions ≠ 0 → (go_for t k s rpm revolutions).outcome = .ok) ∧
    go_to t k s rpm pos = go_for t k s rpm (pos - s._position) := by
  have hpack := packI32_of_natAbs_le _ hr
  refine ⟨?_, ?_, ?_, rfl⟩
  all_goals
    unfold go_for
    simp only [hl, Bool.false_eq_true, if_false, hpack, _send_packet_rpm, ho,
      Bool.true_eq_false, hw, stop]
    by_cases hrev : revolutions = 0
    · simp [hrev]
    · by_cases hrpm : rpm = 0
      · simp [hrev, hrpm]
      · simp [hrev, hrpm]

/-- Witness for the amended C2 at rpm 3, revolutions 1 (deadlock) and the
`go_to` delegation at target position 5. -/
theorem go_for_deadlock_witness :
    initState.lockHeld = false ∧ okTransport.isOpen = true ∧ okTransport.writeOk 0 = true ∧
    (pyInt 3).natAbs ≤ 2 ^ 31 - 1 ∧
    (((1 : ℚ) = 0 ∨ (3 : ℚ) ≠ 0) → (go_for okTransport 0 initState 3 1).outcome = .deadlock) ∧
    (go_for okTransport 0 initState 3 1).state._position = initState._position ∧
    go_to okTransport 0 initState 3 5 = go_for okTransport 0 initState 3 (5 - initState._position) := by
  refine ⟨rfl, rfl, rfl, by decide, ?_, ?_, ?_⟩
  · exact (go_for_deadlock_or_zero_rpm okTransport 0 initState 3 1 5 rfl rfl rfl (by decide)).1
  · exact (go_for_deadlock_or_zero_rpm okTransport 0 initState 3 1 5 rfl rfl rfl (by decide)).2.1
  · exact (go_for_deadlock_or_zero_rpm okTransport 0 initState 3 1 5 rfl rfl rfl (by decide)).2.2.2

/-- C2 (counterexample): `go_for(rpm = 0, revolutions = 1)` on a healthy
transport returns normally — outcome `ok`, no deadlock — refuting "for
every rpm and revolutions, a call to go_for never completes";
`_position` still does not advance. -/
theorem go_for_zero_rpm_completes :
    (go_for okTransport 0 initState 0 1).outcome = .ok ∧
    (go_for okTransport 0 initState 0 1).state._position = 0 :=
  ⟨by decide, by decide⟩

/-- C5 (code evaluated at the failing input): `go_for(rpm = 500,
revolutions = 2.0)` from the idle state on a healthy transport sends the
RPM command, sleeps exactly `|2/500| * 60 = 6/25 = 0.24` seconds — the
claimed arithmetic — and then awaits `stop()` while still holding the
non-reentrant lock: the call deadlocks, no zero-duty stop is ever sent,
and `_position` stays 0 instead of increasing by 2.0. -/
theorem go_for_500_2_deadlocks :
    (go_for okTransport 0 initState 500 2).outcome = .deadlock ∧
    (go_for okTransport 0 initState 500 2).state._position = 0 ∧
    (go_for okTransport 0 initState 500 2).trace =
      [Event.write (vescFrame 8 (i32bytes 500)) true, Event.sleep (6 / 25)] :=
  ⟨by decide, by decide, by decide⟩

/-- C3 (amended): the encode/decode pair that round-trips is the inbound
telemetry representation: for every packet id and payload shorter than
2^16 bytes, `_read_packet` recovers exactly the payload from a
telemetry-framed stream, with or without the expected-id filter
(`_crc16`, a pure function, is trivially deterministic).  The outbound
extended framing produced by `_pack_payload` is not decodable by
`_read_packet` — see the counterexample. -/
theorem telemetry_decode_roundtrip (packet_id : Nat) (payload : List Nat)
    (h : payload.length < 65536) :
    _read_packet true (telemetryFrame packet_id payload) none = some payload ∧
    _read_packet true (telemetryFrame packet_id payload) (some packet_id) = some payload := by
  have hrec : payload.length / 256 % 256 * 256 + payload.length % 256 = payload.length := by
    omega
  constructor <;>
  · unfold telemetryFrame _read_packet
    simp only [packBE16, List.cons_append, List.nil_append, List.append_assoc]
    rw [hrec, List.take_left, List.drop_left]
    set crc := _crc16 (packet_id :: payload.length / 256 % 256 :: payload.length % 256 :: payload)
      with hc
    have hcrc : crc < 65536 := by rw [hc]; exact _crc16_lt _
    have hrec2 : crc / 256 % 256 * 256 + crc % 256 = crc := by omega
    simp [hrec2]

/-- Witness for the amended C3 at packet id 4, payload `[1, 2, 3]`. -/
theorem telemetry_decode_roundtrip_witness :
    (([1, 2, 3] : List Nat).length < 65536) ∧
    _read_packet true (telemetryFrame 4 [1, 2, 3]) none = some [1, 2, 3] ∧
    _read_packet true (telemetryFrame 4 [1, 2, 3]) (some 4) = some [1, 2, 3] :=
  ⟨by decide, (telemetry_decode_roundtrip 4 [1, 2, 3] (by decide)).1,
   (telemetry_decode_roundtrip 4 [1, 2, 3] (by decide)).2⟩

/-- C3 (counterexample): feeding the encoder's own output back into the
decoder loses the frame: the frame built for command id 4 with empty
payload is `[2, 1, 4, 64, 132, 3]` (extended framing), but `_read_packet`
— which parses the headerless telemetry layout — returns `none` on it
instead of recovering `(4, empty)`. -/
theorem encode_then_decode_fails :
    framePacketBytes 4 [] = some [2, 1, 4, 64, 132, 3] ∧
    _read_packet true [2, 1, 4, 64, 132, 3] (some 4) = none :=
  ⟨by decide, by decide⟩

/-- C6 (amended): `_read_packet` is a total function of the inbound bytes
(it never raises) and returns `none` on an empty leading read, a truncated
length, payload or CRC read, a CRC mismatch, and a non-matching truthy
expected id; and it returns the very same `none` — not a distinct error —
when the serial link is not open. -/
theorem read_packet_none_on_malformed (e : Option Nat) (s : List Nat) :
    (_read_packet false s e = none) ∧
    (_read_packet true [] e = none) ∧
    (∀ pid, _read_packet true [pid] e = none) ∧
    (∀ pid l0, _read_packet true [pid, l0] e = none) ∧
    (∀ pid l0 l1 rest, rest.length < l0 * 256 + l1 →
      _read_packet true (pid :: l0 :: l1 :: rest) e = none) ∧
    (∀ pid l0 l1 payload r3, payload.length = l0 * 256 + l1 → r3.length < 2 →
      _read_packet true (pid :: l0 :: l1 :: (payload ++ r3)) e = none) ∧
    (∀ pid l0 l1 payload c0 c1 r4, payload.length = l0 * 256 + l1 →
      c0 * 256 + c1 ≠ _crc16 ([pid] ++ packBE16 (l0 * 256 + l1) ++ payload) →
      _read_packet true (pid :: l0 :: l1 :: (payload ++ c0 :: c1 :: r4)) e = none) ∧
    (∀ eid pid l0 l1 payload c0 c1 r4, payload.length = l0 * 256 + l1 →
      eid ≠ 0 → pid ≠ eid →
      _read_packet true (pid :: l0 :: l1 :: (payload ++ c0 :: c1 :: r4)) (some eid) = none) := by
  refine ⟨rfl, rfl, fun pid => rfl, fun pid l0 => rfl, ?_, ?_, ?_, ?_⟩
  · intro pid l0 l1 rest hlt
    unfold _read_packet
    simp [List.length_take, Nat.min_eq_right hlt.le, hlt.ne]
  · intro pid l0 l1 payload r3 hpl h2
    match r3, h2 with
    | [], _ =>
      have ht : List.take (l0 * 256 + l1) payload = payload := by
        rw [← hpl]; exact List.take_length payload
      have hd : List.drop (l0 * 256 + l1) payload = [] := by
        rw [← hpl]; exact List.drop_length payload
      unfold _read_packet
      simp [ht, hd, hpl]
    | [c0], _ =>
      unfold _read_packet
      simp [List.take_left' hpl, List.drop_left' hpl, hpl]
  · intro pid l0 l1 payload c0 c1 r4 hpl hne
    simp only [List.singleton_append] at hne
    unfold _read_packet
    simp [List.take_left' hpl, List.drop_left' hpl, hpl, hne]
    exact fun hc => absurd hc hne
  · intro eid pid l0 l1 payload c0 c1 r4 hpl heid hpid
    unfold _read_packet
    simp [List.take_left' hpl, List.drop_left' hpl, hpl, heid, hpid]

/-- Witness for the amended C6: a truncated payload read is `none`. -/
theorem read_packet_none_on_malformed_witness :
    (([1, 2, 3] : List Nat).length < 1 * 256 + 4) ∧
    _read_packet true (9 :: 1 :: 4 :: [1, 2, 3]) (some 9) = none :=
  ⟨by decide,
   (read_packet_none_on_malformed (some 9) []).2.2.2.2.1 9 1 4 [1, 2, 3] (by decide)⟩

/-- C6 (counterexample): with the link not open, `_read_packet` returns
`none` — exactly the result it returns for protocol noise such as a
timed-out empty read — so the not-open case is not reported as a distinct
error (source lines 420-421 return `None` too). -/
theorem read_packet_closed_link_same_none :
    _read_packet false [39, 0, 0, 255, 255] none = none ∧
    _read_packet true [] none = none ∧
    _read_packet false [39, 0, 0, 255, 255] none = _read_packet true [] none :=
  ⟨rfl, rfl, rfl⟩

/-- C7 (amended): `_pack_payload` emits the 2-byte header `0x02, len` for
payload lengths up to 255 and the 3-byte header `0x03, len >> 8,
len & 0xFF` for lengths 257 to 65535 — in both cases followed by the
payload, the big-endian CRC16 over the payload, and a trailing `0x03` —
but at exactly 256 bytes (and from 65536 on) the `struct.pack('B', ...)`
range check fires and encoding fails, so the claim's "at most 256 bytes
always succeeds with a 2-byte header" is off by one. -/
theorem pack_payload_header_cases (payload : List Nat) :
    (payload.length ≤ 255 → _pack_payload payload =
      some ([2, payload.length] ++ payload ++ packBE16 (_crc16 payload) ++ [3])) ∧
    (payload.length = 256 → _pack_payload payload = none) ∧
    (257 ≤ payload.length → payload.length < 65536 → _pack_payload payload =
      some ([3, payload.length >>> 8, payload.length &&& 255] ++ payload ++
        packBE16 (_crc16 payload) ++ [3])) ∧
    (65536 ≤ payload.length → _pack_payload payload = none) := by
  unfold _pack_payload packBB packBBB packB
  refine ⟨fun h => ?_, fun h => ?_, fun h1 h2 => ?_, fun h => ?_⟩
  · rw [if_pos (by omega : payload.length ≤ 256), if_pos (by norm_num : (2 : ℕ) ≤ 255),
      if_pos h]
    simp
  · rw [if_pos (by omega : payload.length ≤ 256), if_pos (by norm_num : (2 : ℕ) ≤ 255),
      if_neg (by omega : ¬payload.length ≤ 255)]
    simp
  · rw [if_neg (by omega : ¬payload.length ≤ 256), if_pos (by norm_num : (3 : ℕ) ≤ 255),
      if_pos (by rw [Nat.shiftRight_eq_div_pow]; omega : payload.length >>> 8 ≤ 255),
      if_pos (le_trans Nat.and_le_right (by norm_num) : payload.length &&& 255 ≤ 255)]
    simp
  · rw [if_neg (by omega : ¬payload.length ≤ 256), if_pos (by norm_num : (3 : ℕ) ≤ 255),
      if_neg (by rw [Nat.shiftRight_eq_div_pow]; omega : ¬payload.length >>> 8 ≤ 255)]
    simp

/-- Witness for the amended C7 on a 1-byte payload. -/
theorem pack_payload_header_cases_witness :
    (([7] : List Nat).length ≤ 255) ∧
    _pack_payload [7] =
      some ([2, ([7] : List Nat).length] ++ [7] ++ packBE16 (_crc16 [7]) ++ [3]) :=
  ⟨by decide, (pack_payload_header_cases [7]).1 (by decide)⟩

/-- C7 (counterexample): a payload of exactly 256 bytes falls into the
short-header branch (`len(payload) <= 256`) where `struct.pack('BB', 2,
256)` raises `struct.error`: encoding fails instead of producing the
claimed `0x02, len` header. -/
theorem pack_payload_len256_raises :
    _pack_payload (List.replicate 256 0) = none := by decide

end Vesc
